import Mathlib

/-!
Verification of the payment validation and record-persistence layer of the
SeleniumPythonRobotFramework repository.

The Python sources `src/libraries/PaymentLibrary.py` and
`src/libraries/DatabaseLibrary.py` are shallowly embedded below:
pure validation functions become Lean functions, the SQLite-backed record
store becomes explicit state passing over a `Store` structure whose six
tables are lists of row structures, timestamps become integers (seconds),
SQL `REAL` values become rationals, and fallible operations return
`Except`/`Option`.  External library calls (SHA-256, Fernet encryption,
JSON serialisation) are abstracted as function parameters constrained only
by the properties the library documents.
-/

namespace Payment

/-! ## Character-level helpers for `PaymentLibrary.validate_credit_card_number` -/

/-- `str.replace(' ', '').replace('-', '')`: drop spaces and hyphens. -/
def stripSpacesHyphens (s : List Char) : List Char :=
  s.filter (fun c => c ≠ ' ' ∧ c ≠ '-')

/-- Python `str.isdigit` (restricted to ASCII input): non-empty and all
decimal digits. -/
def pyIsDigit (s : List Char) : Bool :=
  decide (s ≠ []) && s.all (fun c => c.isDigit)

/-- Value of an ASCII digit character. -/
def digitVal (c : Char) : Nat := c.toNat - '0'.toNat

/-- Sum of the decimal digits of `n`, peeling one digit per step; the
fuel argument only bounds the recursion (a number has at most as many
digits as its value).  This is `sum(digits_of(n))` of the source, where
`digits_of` lists the decimal digits. -/
def digitSumFuel : Nat → Nat → Nat
  | 0, _ => 0
  | _ + 1, 0 => 0
  | fuel + 1, n + 1 => ((n + 1) % 10) + digitSumFuel fuel ((n + 1) / 10)

/-- `sum(digits_of(n))` from the source's `luhn_checksum`. -/
def digitSum (n : Nat) : Nat := digitSumFuel n n

/-- Split a list into the elements at even indices and at odd indices;
this is the pair of Python slices `l[0::2]` and `l[1::2]`. -/
def altSplit : List Nat → List Nat × List Nat
  | [] => ([], [])
  | d :: rest =>
    let p := altSplit rest
    (d :: p.2, p.1)

/-- `luhn_checksum` from `PaymentLibrary.validate_credit_card_number`:
`odd_digits = digits[-1::-2]`, `even_digits = digits[-2::-2]`,
checksum = sum of odd digits plus digit sums of doubled even digits,
taken mod 10. -/
def luhn_checksum (digits : List Nat) : Nat :=
  let rev := digits.reverse
  let p := altSplit rev
  (p.1.sum + (p.2.map (fun d => digitSum (d * 2))).sum) % 10

/-- `PaymentLibrary.validate_credit_card_number`. -/
def validate_credit_card_number (card_number : List Char) : Bool :=
  let s := stripSpacesHyphens card_number
  if pyIsDigit s then luhn_checksum (s.map digitVal) == 0
  else false

/-- Luhn sum as the claim words it: walking the digit list from the
right, digits at odd positions (1st, 3rd, ... from the right) are added
as-is and digits at even positions are doubled and their digit sum added.
The boolean argument records the parity of the current position. -/
def luhnSpecSum : Bool → List Nat → Nat
  | _, [] => 0
  | false, d :: rest => d + luhnSpecSum true rest
  | true, d :: rest => digitSum (d * 2) + luhnSpecSum false rest

theorem altSplit_sum_spec (l : List Nat) :
    luhnSpecSum false l
        = (altSplit l).1.sum + ((altSplit l).2.map (fun d => digitSum (d * 2))).sum
      ∧ luhnSpecSum true l
        = ((altSplit l).1.map (fun d => digitSum (d * 2))).sum + (altSplit l).2.sum := by
  induction l with
  | nil => simp [luhnSpecSum, altSplit]
  | cons d rest ih =>
    simp only [luhnSpecSum, altSplit, List.sum_cons, List.map_cons]
    constructor
    · rw [ih.2]; ring
    · rw [ih.1]; ring

theorem luhn_checksum_eq_spec (digits : List Nat) :
    luhn_checksum digits = luhnSpecSum false digits.reverse % 10 := by
  unfold luhn_checksum
  rw [(altSplit_sum_spec digits.reverse).1]

/-- C2: `validate_credit_card_number` strips spaces and hyphens, returns
false when the result is not all digits (Python `isdigit`), and otherwise
returns true iff the Luhn position-weighted digit sum is divisible by 10;
it accepts `"4532015112830366"`, rejects `"4532015112830367"`, and rejects
every string still containing a non-digit after stripping. -/
theorem validate_credit_card_number_correct (s : List Char) :
    (pyIsDigit (stripSpacesHyphens s) = false →
        validate_credit_card_number s = false)
    ∧ (pyIsDigit (stripSpacesHyphens s) = true →
        (validate_credit_card_number s = true ↔
          luhnSpecSum false (((stripSpacesHyphens s).map digitVal).reverse) % 10 = 0))
    ∧ ((∃ c, c ∈ stripSpacesHyphens s ∧ c.isDigit = false) →
        validate_credit_card_number s = false)
    ∧ validate_credit_card_number "4532015112830366".data = true
    ∧ validate_credit_card_number "4532015112830367".data = false := by
  refine ⟨?_, ?_, ?_, by decide, by decide⟩
  · intro h
    simp [validate_credit_card_number, h]
  · intro h
    simp [validate_credit_card_number, h, luhn_checksum_eq_spec]
  · rintro ⟨c, hc, hcd⟩
    have hall : (stripSpacesHyphens s).all (fun c => c.isDigit) = false := by
      rw [List.all_eq_false]
      exact ⟨c, hc, by simp [hcd]⟩
    simp [validate_credit_card_number, pyIsDigit, hall]

/-- Witness for `validate_credit_card_number_correct` at concrete inputs:
a string with a stray letter is rejected, and the Luhn criterion decides a
spaced card number. -/
theorem validate_credit_card_number_correct_witness :
    validate_credit_card_number "4a32".data = false
    ∧ (validate_credit_card_number "4532 0151 1283 0366".data = true ↔
        luhnSpecSum false
          (((stripSpacesHyphens "4532 0151 1283 0366".data).map digitVal).reverse) % 10
          = 0) :=
  ⟨(validate_credit_card_number_correct "4a32".data).1 (by decide),
   (validate_credit_card_number_correct "4532 0151 1283 0366".data).2.1 (by decide)⟩

/-! ## `PaymentLibrary.calculate_payment_fee` -/

/-- Python `round` to an integer: round half to even. -/
def pyRoundHalfEven (q : ℚ) : ℤ :=
  let f := ⌊q⌋
  let frac := q - f
  if frac < 1 / 2 then f
  else if 1 / 2 < frac then f + 1
  else if f % 2 = 0 then f else f + 1

/-- Python `round(x, 2)`: round to two decimal places, half to even. -/
def pyRound2 (q : ℚ) : ℚ := (pyRoundHalfEven (q * 100) : ℚ) / 100

/-- `PaymentLibrary.calculate_payment_fee`.  The amount is `none` when
Python's `float()` conversion fails, in which case the function raises
`ValueError("Invalid amount provided")`.  Arithmetic is modelled exactly
over ℚ. -/
def calculate_payment_fee (amount : Option ℚ) (fee_percentage fixed_fee : ℚ) :
    Except String ℚ :=
  match amount with
  | none => Except.error "Invalid amount provided"
  | some a => Except.ok (pyRound2 (a * (fee_percentage / 100) + fixed_fee))

/-- C6: `calculate_payment_fee` returns `amount * percentage / 100 + fixed`
rounded to two decimal places, in particular 3.20 on `(100, 2.9, 0.30)`,
and signals an invalid-amount error on non-numeric input. -/
theorem calculate_payment_fee_correct (a p f : ℚ) :
    calculate_payment_fee (some a) p f = Except.ok (pyRound2 (a * p / 100 + f))
    ∧ calculate_payment_fee none p f = Except.error "Invalid amount provided"
    ∧ calculate_payment_fee (some 100) 2.9 0.30 = Except.ok 3.20 := by
  have hex : pyRound2 (100 * (2.9 / 100) + 0.30) = 3.20 := by
    unfold pyRound2 pyRoundHalfEven
    norm_num
  refine ⟨?_, rfl, ?_⟩
  · simp [calculate_payment_fee, mul_div_assoc]
  · simp [calculate_payment_fee, hex]

/-! ## `PaymentLibrary.check_fraud_indicators` -/

/-- The fields of the transaction mapping that `check_fraud_indicators`
reads; `none` models an absent key (`dict.get` default applies). -/
structure TxnCheckData where
  amount : Option ℚ
  billing_country : Option String
  ip_country : Option String
  recent_transaction_count : Option Int

/-- `PaymentLibrary.check_fraud_indicators`: amount over 10000, mismatch
of non-empty billing and IP countries, recent transaction count over 5,
collected in that order. -/
def check_fraud_indicators (t : TxnCheckData) : List String :=
  let amount := t.amount.getD 0
  let i1 : List String := if amount > 10000 then ["high_amount"] else []
  let billing_country := t.billing_country.getD ""
  let ip_country := t.ip_country.getD ""
  let i2 : List String :=
    if billing_country ≠ "" ∧ ip_country ≠ "" ∧ billing_country ≠ ip_country then
      ["country_mismatch"]
    else []
  let i3 : List String :=
    if t.recent_transaction_count.getD 0 > 5 then ["velocity_check"] else []
  i1 ++ i2 ++ i3

/-- C8: each fraud flag appears exactly under its condition, the result
is always a sublist of the fixed order
`[high_amount, country_mismatch, velocity_check]`, and it is empty exactly
when no condition holds. -/
theorem check_fraud_indicators_correct (t : TxnCheckData) :
    ("high_amount" ∈ check_fraud_indicators t ↔ t.amount.getD 0 > 10000)
    ∧ ("country_mismatch" ∈ check_fraud_indicators t ↔
        (t.billing_country.getD "" ≠ "" ∧ t.ip_country.getD "" ≠ ""
          ∧ t.billing_country.getD "" ≠ t.ip_country.getD ""))
    ∧ ("velocity_check" ∈ check_fraud_indicators t ↔
        t.recent_transaction_count.getD 0 > 5)
    ∧ List.Sublist (check_fraud_indicators t)
        ["high_amount", "country_mismatch", "velocity_check"]
    ∧ (check_fraud_indicators t = [] ↔
        (¬ t.amount.getD 0 > 10000
          ∧ ¬ (t.billing_country.getD "" ≠ "" ∧ t.ip_country.getD "" ≠ ""
                ∧ t.billing_country.getD "" ≠ t.ip_country.getD "")
          ∧ ¬ t.recent_transaction_count.getD 0 > 5)) := by
  by_cases h1 : t.amount.getD 0 > 10000 <;>
    by_cases h2 : t.billing_country.getD "" ≠ "" ∧ t.ip_country.getD "" ≠ ""
      ∧ t.billing_country.getD "" ≠ t.ip_country.getD "" <;>
    by_cases h3 : t.recent_transaction_count.getD 0 > 5 <;>
    simp [check_fraud_indicators, h1, h2, h3]

/-! ## `PaymentLibrary.hash_payment_data` / `verify_payment_hash` -/

/-- Python `hashed_data.split(':', 1)`: the parts before and after the
first colon.  When there is no colon the first component is the whole
list (the caller checks `':' in hashed_data` beforehand). -/
def splitFirstColon : List Char → List Char × List Char
  | [] => ([], [])
  | c :: rest =>
    if c = ':' then ([], rest)
    else
      let p := splitFirstColon rest
      (c :: p.1, p.2)

/-- `PaymentLibrary.hash_payment_data` with an explicit salt: the source
draws a random 16-character alphanumeric salt when none is supplied, so
the salt is a parameter here, covering both cases.  `sha256hex` abstracts
`hashlib.sha256(...).hexdigest()`; `str(data)` is `data` itself. -/
def hash_payment_data (sha256hex : List Char → List Char)
    (data salt : List Char) : List Char :=
  sha256hex (data ++ salt) ++ ':' :: salt

/-- `PaymentLibrary.verify_payment_hash`: reject when no colon is
present, otherwise split off the salt, recompute the digest and compare
(`hmac.compare_digest` decides equality of the two digests). -/
def verify_payment_hash (sha256hex : List Char → List Char)
    (data hashed_data : List Char) : Bool :=
  if ':' ∈ hashed_data then
    let p := splitFirstColon hashed_data
    sha256hex (data ++ p.2) == p.1
  else false

theorem splitFirstColon_append (a b : List Char) (ha : ':' ∉ a) :
    splitFirstColon (a ++ ':' :: b) = (a, b) := by
  induction a with
  | nil => simp [splitFirstColon]
  | cons c rest ih =>
    have hc : c ≠ ':' := fun h => ha (h ▸ List.mem_cons_self c rest)
    have hrest : ':' ∉ rest := fun h => ha (List.mem_cons_of_mem c h)
    simp [splitFirstColon, hc, ih hrest]

/-- C3: for every digest function, data and salt, hashing and then
verifying the same data succeeds (the SHA-256 hex digest contains no
colon, which enters as a hypothesis on the abstract digest); and
verification fails on every hashed string whose hash part is not the
salted digest of the data, as well as on strings without a colon. -/
theorem verify_payment_hash_correct (sha256hex : List Char → List Char)
    (data salt hashed : List Char) :
    ((':' ∉ sha256hex (data ++ salt)) →
      verify_payment_hash sha256hex data (hash_payment_data sha256hex data salt) = true)
    ∧ (':' ∈ hashed →
        (splitFirstColon hashed).1 ≠ sha256hex (data ++ (splitFirstColon hashed).2) →
        verify_payment_hash sha256hex data hashed = false)
    ∧ ((':' ∉ hashed) → verify_payment_hash sha256hex data hashed = false) := by
  refine ⟨?_, ?_, ?_⟩
  · intro hnc
    unfold verify_payment_hash hash_payment_data
    rw [if_pos (List.mem_append_right _ (List.mem_cons_self _ _)),
      splitFirstColon_append _ _ hnc]
    simp
  · intro hmem hne
    unfold verify_payment_hash
    rw [if_pos hmem]
    simpa [beq_eq_false_iff_ne] using fun h => hne h.symm
  · intro hnc
    unfold verify_payment_hash
    rw [if_neg hnc]

/-- Witness for `verify_payment_hash_correct`: a toy digest function on
concrete data; the matching hash verifies, a tampered hash and a
colon-free string do not. -/
theorem verify_payment_hash_correct_witness :
    verify_payment_hash (fun _ => ['h']) ['d']
        (hash_payment_data (fun _ => ['h']) ['d'] ['s']) = true
    ∧ verify_payment_hash (fun _ => ['h']) ['d'] ['x', ':', 's'] = false
    ∧ verify_payment_hash (fun _ => ['h']) ['d'] ['x'] = false :=
  ⟨(verify_payment_hash_correct (fun _ => ['h']) ['d'] ['s'] ['x']).1 (by decide),
   (verify_payment_hash_correct (fun _ => ['h']) ['d'] ['s'] ['x', ':', 's']).2.1
     (by decide) (by decide),
   (verify_payment_hash_correct (fun _ => ['h']) ['d'] ['s'] ['x']).2.2 (by decide)⟩

/-! ## `PaymentLibrary` tokenize / detokenize -/

/-- Model of the `cryptography.fernet.Fernet` symmetric scheme: a key
generator (`Fernet.generate_key`), encryption and decryption.  The
properties the library documents — decryption inverts encryption under
the same key, decryption rejects anything not produced by encryption
under the key — enter as hypotheses of the theorems below. -/
structure FernetModel (Key : Type) where
  generate_key : Key
  encrypt : Key → List Char → List Char
  decrypt : Key → List Char → Except String (List Char)

/-- The errors `detokenize_payment_data` can raise. -/
inductive TokenError
  | keyMissing       -- `ValueError("Encryption key not set")`
  | decryptionError  -- `cryptography.fernet.InvalidToken`
  deriving DecidableEq

/-- `PaymentLibrary.set_encryption_key`: store the given key, or generate
a fresh one when called without argument.  The state is the held
`encryption_key` (`none` until a key is first set). -/
def set_encryption_key {Key : Type} (F : FernetModel Key)
    (key : Option Key) (_st : Option Key) : Option Key :=
  match key with
  | some k => some k
  | none => some F.generate_key

/-- `PaymentLibrary.tokenize_payment_data`: lazily generate a key when
none is set, serialize the payload (`json.dumps`, abstracted as `dumps`)
and encrypt it; returns the token with the key state after the call. -/
def tokenize_payment_data {Key P : Type} (F : FernetModel Key)
    (dumps : P → List Char) (st : Option Key) (payment_data : P) :
    List Char × Option Key :=
  let k := match st with
    | none => F.generate_key
    | some k => k
  (F.encrypt k (dumps payment_data), some k)

/-- `PaymentLibrary.detokenize_payment_data`: raise when no key was ever
set, propagate decryption failure as `InvalidToken`, otherwise
deserialize (`json.loads`, abstracted as `loads`). -/
def detokenize_payment_data {Key P : Type} (F : FernetModel Key)
    (loads : List Char → P) (st : Option Key) (token : List Char) :
    Except TokenError P :=
  match st with
  | none => Except.error TokenError.keyMissing
  | some k =>
    match F.decrypt k token with
    | Except.error _ => Except.error TokenError.decryptionError
    | Except.ok s => Except.ok (loads s)

/-- C7: `detokenize_payment_data` raises the key-missing error exactly in
the no-key state (and key-holding states are stable: `set_encryption_key`
and `tokenize_payment_data` always leave a key behind); with a key it
raises the decryption error on every token outside the range of
encryption under that key; and detokenizing a fresh token under the
unchanged key returns the original payload. -/
theorem tokenize_detokenize_correct {Key P : Type} (F : FernetModel Key)
    (dumps : P → List Char) (loads : List Char → P)
    (st : Option Key) (key : Option Key) (p : P) (k : Key) (token : List Char) :
    detokenize_payment_data F loads none token = Except.error TokenError.keyMissing
    ∧ detokenize_payment_data (P := P) F loads (some k) token
        ≠ Except.error TokenError.keyMissing
    ∧ ((∀ s, F.encrypt k s ≠ token) →
        (∀ t, (∀ s, F.encrypt k s ≠ t) → ∃ e, F.decrypt k t = Except.error e) →
        detokenize_payment_data F loads (some k) token
          = Except.error TokenError.decryptionError)
    ∧ ((∀ k' s, F.decrypt k' (F.encrypt k' s) = Except.ok s) →
        loads (dumps p) = p →
        detokenize_payment_data F loads
            (tokenize_payment_data F dumps st p).2
            (tokenize_payment_data F dumps st p).1
          = Except.ok p)
    ∧ (set_encryption_key F key st).isSome = true
    ∧ (tokenize_payment_data F dumps st p).2.isSome = true := by
  refine ⟨rfl, ?_, ?_, ?_, ?_, ?_⟩
  · cases hd : F.decrypt k token <;> simp [detokenize_payment_data, hd]
  · intro hout hfail
    obtain ⟨e, he⟩ := hfail token hout
    simp [detokenize_payment_data, he]
  · intro hinv hld
    cases st <;> simp [tokenize_payment_data, detokenize_payment_data, hinv, hld]
  · cases key <;> rfl
  · cases st <;> rfl

/-- A concrete instance of the Fernet interface used to witness
`tokenize_detokenize_correct`: encryption prepends a marker character,
decryption strips it and rejects everything else. -/
def toyFernet : FernetModel Nat where
  generate_key := 0
  encrypt := fun _ s => 'E' :: s
  decrypt := fun _ t =>
    match t with
    | [] => Except.error "InvalidToken"
    | c :: r => if c = 'E' then Except.ok r else Except.error "InvalidToken"

/-- Witness for `tokenize_detokenize_correct` on `toyFernet`: a token
not produced by encryption yields the decryption error, and the
tokenize/detokenize round trip returns the payload. -/
theorem tokenize_detokenize_correct_witness :
    detokenize_payment_data toyFernet (fun l => l) (some 0) ['z']
        = Except.error TokenError.decryptionError
    ∧ detokenize_payment_data toyFernet (fun l => l)
        (tokenize_payment_data toyFernet (fun l => l) none ['x']).2
        (tokenize_payment_data toyFernet (fun l => l) none ['x']).1
        = Except.ok ['x'] :=
  ⟨(tokenize_detokenize_correct toyFernet (fun l => l) (fun l => l) none none
      ['x'] 0 ['z']).2.2.1
      (by intro s hs
          injection hs with h1 _
          exact absurd h1 (by decide))
      (by intro t ht
          match t with
          | [] => exact ⟨"InvalidToken", rfl⟩
          | c :: r =>
            by_cases hc : c = 'E'
            · exact absurd (hc ▸ rfl) (ht r)
            · exact ⟨"InvalidToken", by simp [toyFernet, hc]⟩),
   (tokenize_detokenize_correct toyFernet (fun l => l) (fun l => l) none none
      ['x'] 0 ['z']).2.2.2.1
      (fun _ _ => rfl) rfl⟩

/-! ## `PaymentLibrary.validate_expiry_date` -/

/-- A Python `datetime` value: year, month, day and time of day (in
microseconds since midnight).  `datetime` represents only years 1
through 9999 (`datetime.MINYEAR`/`MAXYEAR`); constructing anything
outside that range raises `ValueError`. -/
structure PyDateTime where
  year : Int
  month : Int
  day : Int
  tod : Int
  deriving DecidableEq

/-- Chronological (lexicographic) order on `datetime` values. -/
def dtLtProp (a b : PyDateTime) : Prop :=
  a.year < b.year
  ∨ (a.year = b.year
      ∧ (a.month < b.month
          ∨ (a.month = b.month
              ∧ (a.day < b.day ∨ (a.day = b.day ∧ a.tod < b.tod)))))

instance (a b : PyDateTime) : Decidable (dtLtProp a b) := by
  unfold dtLtProp
  infer_instance

/-- Python `a < b` on `datetime` values. -/
def pyBefore (a b : PyDateTime) : Bool := decide (dtLtProp a b)

/-- `PaymentLibrary.validate_expiry_date`.  The two inputs are the
results of Python's `int()` conversions (`none` when conversion raises,
handled by the `except` clause).  `datetime(exp_year, exp_month, 1)`
raises — also caught, yielding `False` — when the year lies outside
1..9999, and the `replace` advancing December by one month raises when
the incremented year 10000 is out of range.  The card is valid when the
first day after the expiry month is strictly after the current time. -/
def validate_expiry_date : Option Int → Option Int → PyDateTime → Bool
  | some exp_month, some exp_year, now =>
    if exp_month < 1 ∨ exp_month > 12 then false
    else if exp_year < 1 ∨ exp_year > 9999 then false
    else if exp_month = 12 ∧ exp_year = 9999 then false
    else
      let expiry_date : PyDateTime :=
        if exp_month = 12 then ⟨exp_year + 1, 1, 1, 0⟩
        else ⟨exp_year, exp_month + 1, 1, 0⟩
      pyBefore now expiry_date
  | none, _, _ => false
  | some _, none, _ => false

/-- The first day of the month immediately after the expiry month, as
the claim describes it (without `datetime`'s range restriction). -/
def firstOfNextMonth (exp_year exp_month : Int) : PyDateTime :=
  if exp_month = 12 then ⟨exp_year + 1, 1, 1, 0⟩
  else ⟨exp_year, exp_month + 1, 1, 0⟩

/-- C5 counterexample: month 12, year 9999 is convertible with the month
inside 1–12 and the first day of the following month (1 Jan 10000) is
strictly after the current time 2024-01-01, yet the code returns false:
`replace` raises on year 10000 and the handler returns `False`. -/
theorem validate_expiry_date_claim_counterexample :
    validate_expiry_date (some 12) (some 9999) ⟨2024, 1, 1, 0⟩ = false
    ∧ pyBefore ⟨2024, 1, 1, 0⟩ (firstOfNextMonth 9999 12) = true := by
  constructor
  · rfl
  · decide

/-- C5 (amended): `validate_expiry_date` returns false when a conversion
fails or the month is outside 1–12, and also — through the caught
`ValueError` from `datetime` — when the year lies outside the
representable range 1–9999 or the expiry is December 9999; in every
other case it returns true exactly when the first day of the month after
the expiry month is strictly after the current time.  In particular a
past month/year yields false and the current month/year yields true. -/
theorem validate_expiry_date_correct (month year : Option Int) (m y : Int)
    (now : PyDateTime) :
    validate_expiry_date none year now = false
    ∧ validate_expiry_date month none now = false
    ∧ ((m < 1 ∨ m > 12) → validate_expiry_date (some m) (some y) now = false)
    ∧ ((y < 1 ∨ y > 9999) → validate_expiry_date (some m) (some y) now = false)
    ∧ (m = 12 → y = 9999 → validate_expiry_date (some m) (some y) now = false)
    ∧ (1 ≤ m → m ≤ 12 → 1 ≤ y → y ≤ 9999 → ¬(m = 12 ∧ y = 9999) →
        validate_expiry_date (some m) (some y) now
          = pyBefore now (firstOfNextMonth y m))
    ∧ (1 ≤ m → m ≤ 12 → (y < now.year ∨ (y = now.year ∧ m < now.month)) →
        1 ≤ now.month → now.month ≤ 12 → 1 ≤ now.day → 0 ≤ now.tod →
        validate_expiry_date (some m) (some y) now = false)
    ∧ (1 ≤ m → m ≤ 12 → 1 ≤ y → y ≤ 9999 → ¬(m = 12 ∧ y = 9999) →
        y = now.year → m = now.month →
        validate_expiry_date (some m) (some y) now = true) := by
  refine ⟨rfl, ?_, ?_, ?_, ?_, ?_, ?_, ?_⟩
  · cases month <;> rfl
  · intro h
    simp only [validate_expiry_date]
    rw [if_pos h]
  · intro h
    simp only [validate_expiry_date]
    split_ifs <;> first | rfl | (exfalso; omega)
  · intro hm hy
    simp only [validate_expiry_date]
    split_ifs <;> first | rfl | (exfalso; omega)
  · intro h1 h2 h3 h4 h5
    simp only [validate_expiry_date, firstOfNextMonth]
    split_ifs <;> first | rfl | (exfalso; omega)
  · intro h1 h2 hpast hmon1 hmon2 hday htod
    simp only [validate_expiry_date]
    split_ifs <;>
      first
        | rfl
        | (exfalso; omega)
        | (simp [pyBefore, dtLtProp]; omega)
  · intro h1 h2 h3 h4 h5 h6 h7
    simp only [validate_expiry_date]
    split_ifs <;>
      first
        | (exfalso; omega)
        | (simp [pyBefore, dtLtProp]; omega)

/-- Witness for `validate_expiry_date_correct` at concrete inputs:
month 13 rejected, June 2030 reduces to the date comparison, June 2020
is past, May 2024 is the current month. -/
theorem validate_expiry_date_correct_witness :
    validate_expiry_date (some 13) (some 2030) ⟨2024, 5, 15, 0⟩ = false
    ∧ validate_expiry_date (some 6) (some 2030) ⟨2024, 5, 15, 0⟩
        = pyBefore ⟨2024, 5, 15, 0⟩ (firstOfNextMonth 2030 6)
    ∧ validate_expiry_date (some 6) (some 2020) ⟨2024, 5, 15, 0⟩ = false
    ∧ validate_expiry_date (some 5) (some 2024) ⟨2024, 5, 15, 0⟩ = true :=
  ⟨(validate_expiry_date_correct (some 13) (some 2030) 13 2030 ⟨2024, 5, 15, 0⟩).2.2.1
      (by decide),
   (validate_expiry_date_correct (some 6) (some 2030) 6 2030 ⟨2024, 5, 15, 0⟩).2.2.2.2.2.1
      (by decide) (by decide) (by decide) (by decide) (by decide),
   (validate_expiry_date_correct (some 6) (some 2020) 6 2020 ⟨2024, 5, 15, 0⟩).2.2.2.2.2.2.1
      (by decide) (by decide) (by decide) (by decide) (by decide) (by decide) (by decide),
   (validate_expiry_date_correct (some 5) (some 2024) 5 2024 ⟨2024, 5, 15, 0⟩).2.2.2.2.2.2.2
      (by decide) (by decide) (by decide) (by decide) (by decide) (by decide) (by decide)⟩

end Payment

namespace DB

/-! ## Record-store data model (`DatabaseLibrary._initialize_schema`)

Each table is a list of rows in insertion (`rowid`) order; `TIMESTAMP`
columns are integers (seconds), `REAL` columns rationals, nullable
columns `Option`. -/

/-- Row of `payment_transactions`. -/
structure TxnRow where
  id : String
  amount : ℚ
  currency : String
  payment_method : String
  gateway : String
  status : String
  customer_id : Option String
  merchant_id : String
  created_at : Int
  updated_at : Int
  gateway_transaction_id : Option String
  failure_reason : Option String
  metadata : Option String
  deriving DecidableEq

/-- Row of `payment_methods`. -/
structure PaymentMethodRow where
  id : String
  customer_id : String
  type : String
  gateway_payment_method_id : Option String
  is_default : Bool
  status : String
  expiry_month : Option Int
  expiry_year : Option Int
  last_four : Option String
  card_brand : Option String
  created_at : Int
  updated_at : Int
  deriving DecidableEq

/-- Row of `customers`. -/
structure CustomerRow where
  id : String
  email : Option String
  first_name : Option String
  last_name : Option String
  phone : Option String
  created_at : Int
  updated_at : Int
  deriving DecidableEq

/-- Row of `refunds`. -/
structure RefundRow where
  id : String
  original_transaction_id : String
  amount : ℚ
  currency : String
  reason : Option String
  status : String
  gateway_refund_id : Option String
  created_at : Int
  processed_at : Option Int
  deriving DecidableEq

/-- Row of `fraud_alerts`. -/
structure FraudAlertRow where
  id : String
  transaction_id : Option String
  alert_type : String
  severity : String
  risk_score : Option Int
  triggered_rules : Option String
  ip_address : Option String
  user_agent : Option String
  resolved : Bool
  created_at : Int
  deriving DecidableEq

/-- Row of `test_execution_logs`. -/
structure LogRow where
  id : String
  test_suite : String
  test_case : String
  status : String
  execution_time : Option ℚ
  environment : Option String
  error_message : Option String
  created_at : Int
  deriving DecidableEq

/-- The connected store: the six tables created by
`_initialize_schema`. -/
structure Store where
  payment_transactions : List TxnRow
  payment_methods : List PaymentMethodRow
  customers : List CustomerRow
  refunds : List RefundRow
  fraud_alerts : List FraudAlertRow
  test_execution_logs : List LogRow
  deriving DecidableEq

/-! ## `insert_payment_transaction` / `get_payment_transaction` -/

/-- The transaction mapping accepted by `insert_payment_transaction`;
`none` models an absent optional key.  The metadata mapping is a list of
key/value pairs. -/
structure TxnInput where
  id : Option String
  amount : ℚ
  currency : String
  payment_method : String
  gateway : Option String
  status : String
  customer_id : Option String
  merchant_id : Option String
  gateway_transaction_id : Option String
  failure_reason : Option String
  metadata : Option (List (String × String))
  deriving DecidableEq

/-- `DatabaseLibrary.insert_payment_transaction`.  `dumps` abstracts
`json.dumps`; `now` is the commit time filled into the
`created_at`/`updated_at` columns by their `CURRENT_TIMESTAMP` default;
`ts` is `datetime.now().strftime('%Y%m%d_%H%M%S')`, used when no id is
given.  The `INSERT` raises `sqlite3.IntegrityError` when the primary
key already exists. -/
def insert_payment_transaction (dumps : List (String × String) → String)
    (txn : TxnInput) (now : Int) (ts : String) (s : Store) :
    Except String (String × Store) :=
  let transaction_id := txn.id.getD ("txn_" ++ ts)
  if s.payment_transactions.any (fun r => r.id == transaction_id) then
    Except.error "IntegrityError: UNIQUE constraint failed: payment_transactions.id"
  else
    let row : TxnRow := {
      id := transaction_id
      amount := txn.amount
      currency := txn.currency
      payment_method := txn.payment_method
      gateway := txn.gateway.getD "unknown"
      status := txn.status
      customer_id := txn.customer_id
      merchant_id := txn.merchant_id.getD "default"
      created_at := now
      updated_at := now
      gateway_transaction_id := txn.gateway_transaction_id
      failure_reason := txn.failure_reason
      metadata := some (dumps (txn.metadata.getD [])) }
    Except.ok (transaction_id,
      { s with payment_transactions := s.payment_transactions ++ [row] })

/-- Python `transaction['metadata'] or '{}'` on the nullable `metadata`
column: `NULL` and the empty string fall back to `'{}'`. -/
def metadataOrEmpty : Option String → String
  | none => "{}"
  | some s => if s = "" then "{}" else s

/-- The structured record returned by `get_payment_transaction`: the row
with the `metadata` column deserialized. -/
structure TxnOut where
  id : String
  amount : ℚ
  currency : String
  payment_method : String
  gateway : String
  status : String
  customer_id : Option String
  merchant_id : String
  created_at : Int
  updated_at : Int
  gateway_transaction_id : Option String
  failure_reason : Option String
  metadata : List (String × String)
  deriving DecidableEq

/-- `DatabaseLibrary.get_payment_transaction`: point lookup by primary
key (`fetchone` on `WHERE id = ?`); `loads` abstracts `json.loads`. -/
def get_payment_transaction (loads : String → List (String × String))
    (transaction_id : String) (s : Store) : Option TxnOut :=
  match s.payment_transactions.find? (fun r => r.id == transaction_id) with
  | none => none
  | some r => some {
      id := r.id
      amount := r.amount
      currency := r.currency
      payment_method := r.payment_method
      gateway := r.gateway
      status := r.status
      customer_id := r.customer_id
      merchant_id := r.merchant_id
      created_at := r.created_at
      updated_at := r.updated_at
      gateway_transaction_id := r.gateway_transaction_id
      failure_reason := r.failure_reason
      metadata := loads (metadataOrEmpty r.metadata) }

theorem find?_append_singleton {α : Type} (p : α → Bool) (l : List α) (a : α)
    (h : l.any p = false) :
    List.find? p (l ++ [a]) = List.find? p [a] := by
  induction l with
  | nil => rfl
  | cons x xs ih =>
    simp only [List.any_cons, Bool.or_eq_false_iff] at h
    simp only [List.cons_append, List.find?_cons, h.1, ih h.2]

/-- C4: when `insert_payment_transaction` succeeds, the returned id is
the record's own id (or the generated `txn_`-prefixed one), and reading
it back yields a record whose amount, currency and status match the
input and whose metadata is the input metadata (empty mapping when
absent) after `dumps` and `loads`.  The hypothesis that `dumps` never
returns the empty string reflects `json.dumps`. -/
theorem insert_get_payment_transaction_roundtrip
    (dumps : List (String × String) → String)
    (loads : String → List (String × String))
    (txn : TxnInput) (now : Int) (ts : String) (s : Store)
    (tid : String) (s' : Store)
    (hok : insert_payment_transaction dumps txn now ts s = Except.ok (tid, s'))
    (hne : dumps (txn.metadata.getD []) ≠ "") :
    tid = txn.id.getD ("txn_" ++ ts)
    ∧ ∃ out, get_payment_transaction loads tid s' = some out
        ∧ out.amount = txn.amount
        ∧ out.currency = txn.currency
        ∧ out.status = txn.status
        ∧ out.metadata = loads (dumps (txn.metadata.getD [])) := by
  simp only [insert_payment_transaction] at hok
  split at hok
  case isTrue => cases hok
  case isFalse hany =>
    simp only [Except.ok.injEq, Prod.mk.injEq] at hok
    obtain ⟨h1, h2⟩ := hok
    subst h1
    subst h2
    refine ⟨rfl, ?_⟩
    rw [Bool.not_eq_true] at hany
    simp only [get_payment_transaction,
      find?_append_singleton _ _ _ hany, List.find?_cons]
    simp only [beq_self_eq_true, metadataOrEmpty, if_neg hne]
    exact ⟨_, rfl, rfl, rfl, rfl, rfl⟩

/-- A transaction mapping with an explicit id, used as witness input. -/
def exTxnInput : TxnInput where
  id := some "t1"
  amount := 5
  currency := "USD"
  payment_method := "card"
  gateway := none
  status := "pending"
  customer_id := none
  merchant_id := none
  gateway_transaction_id := none
  failure_reason := none
  metadata := none

/-- The store right after `connect_to_database`: six empty tables. -/
def emptyStore : Store where
  payment_transactions := []
  payment_methods := []
  customers := []
  refunds := []
  fraud_alerts := []
  test_execution_logs := []

/-- Witness for `insert_get_payment_transaction_roundtrip`: inserting a
concrete transaction into the empty store and reading it back. -/
theorem insert_get_payment_transaction_roundtrip_witness :
    ∃ tid s' out,
      insert_payment_transaction (fun _ => "{}") exTxnInput 10 "x" emptyStore
        = Except.ok (tid, s')
      ∧ tid = "t1"
      ∧ get_payment_transaction (fun _ => []) tid s' = some out
      ∧ out.amount = 5
      ∧ out.currency = "USD"
      ∧ out.status = "pending"
      ∧ out.metadata = [] := by
  obtain ⟨h1, out, h2, h3, h4, h5, h6⟩ :=
    insert_get_payment_transaction_roundtrip (fun _ => "{}") (fun _ => [])
      exTxnInput 10 "x" emptyStore _ _ rfl (by decide)
  exact ⟨_, _, out, rfl, h1, h2, h3, h4, h5, h6⟩

/-! ## `update_payment_status` -/

/-- `DatabaseLibrary.update_payment_status`: `UPDATE payment_transactions
SET status = ?, failure_reason = ?, updated_at = CURRENT_TIMESTAMP WHERE
id = ?`.  `now` models `CURRENT_TIMESTAMP`; the `UPDATE` affects every
row whose id matches (and nothing otherwise), and raises no error when
none does. -/
def update_payment_status (transaction_id status : String)
    (failure_reason : Option String) (now : Int) (s : Store) : Store :=
  { s with payment_transactions := s.payment_transactions.map (fun r =>
      if r.id == transaction_id then
        { r with status := status, failure_reason := failure_reason, updated_at := now }
      else r) }

theorem map_id_of_mem {α : Type} (f : α → α) (l : List α)
    (h : ∀ x ∈ l, f x = x) : l.map f = l := by
  induction l with
  | nil => rfl
  | cons x xs ih =>
    simp only [List.map_cons, h x (List.mem_cons_self x xs),
      ih (fun y hy => h y (List.mem_cons_of_mem x hy))]

/-- C9: `update_payment_status` leaves the other five tables untouched
and preserves the transaction table's length; the row at each position
is unchanged when its id differs from the target, and otherwise keeps
every field except `status`, `failure_reason` and `updated_at`, which
take the new values; when no row carries the target id the whole store
is unchanged (and no error is raised — the function is total). -/
theorem update_payment_status_frame (transaction_id status : String)
    (failure_reason : Option String) (now : Int) (s : Store) :
    (update_payment_status transaction_id status failure_reason now s).payment_methods
        = s.payment_methods
    ∧ (update_payment_status transaction_id status failure_reason now s).customers
        = s.customers
    ∧ (update_payment_status transaction_id status failure_reason now s).refunds
        = s.refunds
    ∧ (update_payment_status transaction_id status failure_reason now s).fraud_alerts
        = s.fraud_alerts
    ∧ (update_payment_status transaction_id status failure_reason now s).test_execution_logs
        = s.test_execution_logs
    ∧ (update_payment_status transaction_id status failure_reason now s).payment_transactions.length
        = s.payment_transactions.length
    ∧ (∀ (i : Nat) (r : TxnRow), s.payment_transactions[i]? = some r →
        (r.id ≠ transaction_id →
          (update_payment_status transaction_id status failure_reason now
              s).payment_transactions[i]? = some r)
        ∧ (r.id = transaction_id →
            ∃ r', (update_payment_status transaction_id status failure_reason now
                s).payment_transactions[i]? = some r'
              ∧ r'.id = r.id ∧ r'.amount = r.amount ∧ r'.currency = r.currency
              ∧ r'.payment_method = r.payment_method ∧ r'.gateway = r.gateway
              ∧ r'.customer_id = r.customer_id ∧ r'.merchant_id = r.merchant_id
              ∧ r'.created_at = r.created_at
              ∧ r'.gateway_transaction_id = r.gateway_transaction_id
              ∧ r'.metadata = r.metadata
              ∧ r'.status = status ∧ r'.failure_reason = failure_reason
              ∧ r'.updated_at = now))
    ∧ ((∀ r ∈ s.payment_transactions, r.id ≠ transaction_id) →
        update_payment_status transaction_id status failure_reason now s = s) := by
  refine ⟨rfl, rfl, rfl, rfl, rfl, by simp [update_payment_status], ?_, ?_⟩
  · intro i r hr
    constructor
    · intro hne
      simp only [update_payment_status, List.getElem?_map, hr, Option.map_some']
      rw [if_neg (by simpa using hne)]
    · intro heq
      refine ⟨{ r with
          status := status
          failure_reason := failure_reason
          updated_at := now }, ?_,
        rfl, rfl, rfl, rfl, rfl, rfl, rfl, rfl, rfl, rfl, rfl, rfl, rfl⟩
      simp only [update_payment_status, List.getElem?_map, hr, Option.map_some']
      rw [if_pos (by simpa using heq)]
  · intro hnone
    unfold update_payment_status
    rw [map_id_of_mem _ _ (fun r hm => if_neg (by simpa using hnone r hm))]

/-- A one-row transaction table used as witness store. -/
def exTxnRow : TxnRow where
  id := "t1"
  amount := 5
  currency := "USD"
  payment_method := "card"
  gateway := "stripe"
  status := "pending"
  customer_id := none
  merchant_id := "default"
  created_at := 1
  updated_at := 1
  gateway_transaction_id := none
  failure_reason := none
  metadata := some "{}"

/-- Store holding just `exTxnRow`. -/
def exStore : Store where
  payment_transactions := [exTxnRow]
  payment_methods := []
  customers := []
  refunds := []
  fraud_alerts := []
  test_execution_logs := []

/-- Witness for `update_payment_status_frame`: updating an absent id
leaves the store unchanged, and updating the present id rewrites exactly
the three fields. -/
theorem update_payment_status_frame_witness :
    update_payment_status "zzz" "failed" none 5 exStore = exStore
    ∧ ∃ r', (update_payment_status "t1" "failed" (some "card declined") 5
          exStore).payment_transactions[0]? = some r'
        ∧ r'.id = exTxnRow.id ∧ r'.amount = exTxnRow.amount
        ∧ r'.currency = exTxnRow.currency
        ∧ r'.payment_method = exTxnRow.payment_method
        ∧ r'.gateway = exTxnRow.gateway
        ∧ r'.customer_id = exTxnRow.customer_id
        ∧ r'.merchant_id = exTxnRow.merchant_id
        ∧ r'.created_at = exTxnRow.created_at
        ∧ r'.gateway_transaction_id = exTxnRow.gateway_transaction_id
        ∧ r'.metadata = exTxnRow.metadata
        ∧ r'.status = "failed" ∧ r'.failure_reason = some "card declined"
        ∧ r'.updated_at = 5 :=
  ⟨(update_payment_status_frame "zzz" "failed" none 5 exStore).2.2.2.2.2.2.2
      (by decide),
   ((update_payment_status_frame "t1" "failed" (some "card declined") 5
        exStore).2.2.2.2.2.2.1 0 exTxnRow (by decide)).2 rfl⟩

/-! ## `get_test_success_rate` -/

/-- The row filter of `get_test_success_rate`'s query: suite match (all
suites when `none`) and `created_at >= time_threshold`. -/
def logInWindow (test_suite : Option String) (time_threshold : Int)
    (r : LogRow) : Bool :=
  (match test_suite with
   | some tsu => r.test_suite == tsu
   | none => true)
  && decide (time_threshold ≤ r.created_at)

/-- `DatabaseLibrary.get_test_success_rate`: percentage of `'PASS'` rows
among the matching test-execution logs of the trailing `hours` window;
`0.0` when no row matches (instead of dividing by zero). -/
def get_test_success_rate (test_suite : Option String) (hours : Int)
    (now : Int) (s : Store) : ℚ :=
  let time_threshold := now - hours * 3600
  let rows := s.test_execution_logs.filter (logInWindow test_suite time_threshold)
  let total := rows.length
  let passed := (rows.filter (fun r => r.status == "PASS")).length
  if total > 0 then (passed : ℚ) / (total : ℚ) * 100 else 0

/-- C10: with zero matching rows `get_test_success_rate` returns exactly
0 without any error (the function is total), and with at least one
matching row it returns passed / total * 100 over the matching rows. -/
theorem get_test_success_rate_correct (test_suite : Option String)
    (hours now : Int) (s : Store) :
    (s.test_execution_logs.filter (logInWindow test_suite (now - hours * 3600)) = [] →
      get_test_success_rate test_suite hours now s = 0)
    ∧ (s.test_execution_logs.filter (logInWindow test_suite (now - hours * 3600)) ≠ [] →
        get_test_success_rate test_suite hours now s
          = (((s.test_execution_logs.filter
                  (logInWindow test_suite (now - hours * 3600))).filter
                (fun r => r.status == "PASS")).length : ℚ)
              / ((s.test_execution_logs.filter
                  (logInWindow test_suite (now - hours * 3600))).length : ℚ)
              * 100) := by
  constructor
  · intro h
    simp [get_test_success_rate, h]
  · intro h
    have hlen : 0 < (s.test_execution_logs.filter
        (logInWindow test_suite (now - hours * 3600))).length :=
      List.length_pos.mpr h
    simp only [get_test_success_rate]
    rw [if_pos hlen]

/-- A single passing log row inside the 24-hour window. -/
def exLogRow : LogRow where
  id := "log_1"
  test_suite := "smoke"
  test_case := "tc"
  status := "PASS"
  execution_time := some 1
  environment := some "ci"
  error_message := none
  created_at := 1000

/-- Store holding just `exLogRow`. -/
def exLogStore : Store where
  payment_transactions := []
  payment_methods := []
  customers := []
  refunds := []
  fraud_alerts := []
  test_execution_logs := [exLogRow]

/-- Witness for `get_test_success_rate_correct`: the empty store yields
0, and a store with one in-window passing row yields the ratio. -/
theorem get_test_success_rate_correct_witness :
    get_test_success_rate none 24 2000 emptyStore = 0
    ∧ get_test_success_rate none 24 2000 exLogStore
        = (((exLogStore.test_execution_logs.filter
                (logInWindow none (2000 - 24 * 3600))).filter
              (fun r => r.status == "PASS")).length : ℚ)
            / ((exLogStore.test_execution_logs.filter
                (logInWindow none (2000 - 24 * 3600))).length : ℚ)
            * 100 :=
  ⟨(get_test_success_rate_correct none 24 2000 emptyStore).1 rfl,
   (get_test_success_rate_correct none 24 2000 exLogStore).2 (by decide)⟩

/-! ## `cleanup_old_data` -/

/-- `DatabaseLibrary.cleanup_old_data`: delete the test-execution logs
older than `days_to_keep` days and the fraud alerts older than a fixed
365 days; the returned value is `cursor.rowcount` after the **last**
`DELETE`, i.e. the number of fraud-alert rows just removed. -/
def cleanup_old_data (days_to_keep : Int) (now : Int) (s : Store) :
    Nat × Store :=
  let cutoff_date := now - days_to_keep * 86400
  let keptLogs := s.test_execution_logs.filter
    (fun r => !decide (r.created_at < cutoff_date))
  let fraud_cutoff := now - 365 * 86400
  let keptFraud := s.fraud_alerts.filter
    (fun r => !decide (r.created_at < fraud_cutoff))
  let deleted_count := (s.fraud_alerts.filter
    (fun r => decide (r.created_at < fraud_cutoff))).length
  (deleted_count,
    { s with test_execution_logs := keptLogs, fraud_alerts := keptFraud })

/-- A store with a single 100-day-old log row and no fraud alerts. -/
def exOldLogStore : Store where
  payment_transactions := []
  payment_methods := []
  customers := []
  refunds := []
  fraud_alerts := []
  test_execution_logs := [{
    id := "log_1"
    test_suite := "smoke"
    test_case := "tc"
    status := "PASS"
    execution_time := none
    environment := some "ci"
    error_message := none
    created_at := 0 }]

/-- C1 counterexample: on a store with one 100-day-old log and no fraud
alerts, `cleanup_old_data(90)` (at `now` = 100 days) deletes that log
row yet returns 0 — `cursor.rowcount` is read after the fraud-alert
`DELETE`, so the return value is not the number of rows removed from
`test_execution_logs` (which is 1). -/
theorem cleanup_old_data_claim_counterexample :
    (cleanup_old_data 90 8640000 exOldLogStore).2.test_execution_logs = []
    ∧ exOldLogStore.test_execution_logs.length = 1
    ∧ (cleanup_old_data 90 8640000 exOldLogStore).1 = 0
    ∧ (cleanup_old_data 90 8640000 exOldLogStore).1
        ≠ exOldLogStore.test_execution_logs.length
          - (cleanup_old_data 90 8640000 exOldLogStore).2.test_execution_logs.length := by
  refine ⟨rfl, rfl, rfl, ?_⟩
  decide

/-- C1 (amended): `cleanup_old_data` deletes exactly the log rows older
than `days_to_keep` days and exactly the fraud-alert rows older than the
fixed 365 days — fraud alerts at most 365 days old are retained no
matter what `days_to_keep` is — leaves the other four tables untouched,
and returns the number of rows removed from the fraud_alerts table (not,
as the claim states, from test_execution_logs; see the
counterexample). -/
theorem cleanup_old_data_correct (days_to_keep now : Int) (s : Store) :
    (cleanup_old_data days_to_keep now s).2.test_execution_logs
        = s.test_execution_logs.filter
            (fun r => decide (now - days_to_keep * 86400 ≤ r.created_at))
    ∧ (cleanup_old_data days_to_keep now s).2.fraud_alerts
        = s.fraud_alerts.filter
            (fun r => decide (now - 365 * 86400 ≤ r.created_at))
    ∧ (cleanup_old_data days_to_keep now s).1
        = (s.fraud_alerts.filter
            (fun r => decide (r.created_at < now - 365 * 86400))).length
    ∧ (cleanup_old_data days_to_keep now s).2.payment_transactions
        = s.payment_transactions
    ∧ (cleanup_old_data days_to_keep now s).2.payment_methods
        = s.payment_methods
    ∧ (cleanup_old_data days_to_keep now s).2.customers = s.customers
    ∧ (cleanup_old_data days_to_keep now s).2.refunds = s.refunds := by
  have hflip : ∀ (c : Int) (l : List LogRow),
      l.filter (fun r => !decide (r.created_at < c))
        = l.filter (fun r => decide (c ≤ r.created_at)) := by
    intro c l
    apply List.filter_congr
    intro r _
    by_cases h : r.created_at < c
    · simp [h, not_le.mpr h]
    · simp [h, not_lt.mp h]
  have hflipF : ∀ (c : Int) (l : List FraudAlertRow),
      l.filter (fun r => !decide (r.created_at < c))
        = l.filter (fun r => decide (c ≤ r.created_at)) := by
    intro c l
    apply List.filter_congr
    intro r _
    by_cases h : r.created_at < c
    · simp [h, not_le.mpr h]
    · simp [h, not_lt.mp h]
  refine ⟨?_, ?_, rfl, rfl, rfl, rfl, rfl⟩
  · exact hflip _ _
  · exact hflipF _ _

end DB
